import Mathlib

/-!
Shallow embedding of the Ea_desk helpdesk core: the ticket / comment /
user data model (`src/unnamed/part_003`, the drizzle schema), the storage
layer (`src/server/storage.ts`), and the Express route handlers
(`src/server/routes.ts`).  Timestamps are abstracted to `Nat` (a value of
the request clock passed in as `now`); nullable database columns are
`Option` fields; fields that a zod schema marks optional are `Option` in
the request-body records, and a nullable optional field is
`Option (Option _)` (absent / explicit null / value).
-/

namespace EaDesk

/-- `ticket_priority` enum: low, medium, high, critical. -/
inductive Priority
  | low
  | medium
  | high
  | critical
deriving DecidableEq

/-- `ticket_status` enum: open, in_progress, resolved, closed. -/
inductive Status
  | open_
  | inProgress
  | resolved
  | closed
deriving DecidableEq

/-- `ticket_category` enum. -/
inductive Category
  | hardware
  | software
  | network
  | email
  | access
  | other
deriving DecidableEq

/-- Row of the `users` table.  `role` is a nullable varchar with database
default "employee"; `email` is nullable and unique when present. -/
structure User where
  id : String
  email : Option String
  firstName : Option String
  lastName : Option String
  profileImageUrl : Option String
  role : Option String
  department : Option String
  createdAt : Option Nat
  updatedAt : Option Nat
deriving DecidableEq

/-- Row of the `tickets` table.  `status` is nullable with default
"open"; `resolvedAt` / `closedAt` are nullable timestamps. -/
structure Ticket where
  id : Nat
  ticketNumber : String
  subject : String
  description : String
  priority : Priority
  status : Option Status
  category : Category
  department : Option String
  createdBy : String
  assignedTo : Option String
  createdAt : Option Nat
  updatedAt : Option Nat
  resolvedAt : Option Nat
  closedAt : Option Nat
deriving DecidableEq

/-- Row of the `comments` table.  `isInternal` is nullable boolean with
default false. -/
structure Comment where
  id : Nat
  ticketId : Nat
  userId : String
  content : String
  isInternal : Option Bool
  createdAt : Option Nat
deriving DecidableEq

/-- The persistence backend state: the three record kinds plus the two
serial-column sequences (`tickets.id`, `comments.id`), which in PostgreSQL
advance monotonically and never rewind on delete. -/
structure Store where
  users : List User
  tickets : List Ticket
  comments : List Comment
  ticketSeq : Nat
  commentSeq : Nat
deriving DecidableEq

/-- Lookup a user row by primary key (`db.select.from(users).where(eq(users.id, id))`). -/
def findUser (st : Store) (id : String) : Option User :=
  st.users.find? (fun u => u.id = id)

/-- Lookup a ticket row by primary key. -/
def findTicket (st : Store) (id : Nat) : Option Ticket :=
  st.tickets.find? (fun t => t.id = id)

/-- The role check the routes perform: `user?.role === 'admin'`
(a missing user row or a null role is not an admin). -/
def isAdminUser (st : Store) (userId : String) : Bool :=
  match findUser st userId with
  | some u => u.role = some "admin"
  | none => false

/-- Stable insertion of `a` into `l`, keeping elements on which `before`
says `a` should not yet be placed. -/
def insertBy (before : α → α → Bool) (a : α) : List α → List α
  | [] => [a]
  | b :: bs => if before a b then a :: b :: bs else b :: insertBy before a bs

/-- Insertion sort used to embed SQL `ORDER BY`; it computes by structural
recursion so concrete runs reduce in the kernel. -/
def sortBy (before : α → α → Bool) : List α → List α
  | [] => []
  | a :: as => insertBy before a (sortBy before as)

/-- `ORDER BY ts DESC` comparison on nullable timestamps; PostgreSQL puts
NULLs first under DESC. -/
def descBefore (x y : Option Nat) : Bool :=
  match x, y with
  | none, _ => true
  | some _, none => false
  | some a, some b => decide (b ≤ a)

/-- Sort rows by a nullable timestamp key, newest first. -/
def sortDescBy (key : α → Option Nat) (l : List α) : List α :=
  sortBy (fun a b => descBefore (key a) (key b)) l

/-- `storage.getAllTickets`: every ticket row, ordered by `createdAt`
descending.  The creator/assignee join only decorates each row with user
records and is recoverable via `findUser`; the rows themselves are
returned unchanged. -/
def getAllTickets (st : Store) : List Ticket :=
  sortDescBy Ticket.createdAt st.tickets

/-- `storage.getTicketsByUser`: tickets with `createdBy = userId`,
ordered by `createdAt` descending. -/
def getTicketsByUser (st : Store) (userId : String) : List Ticket :=
  sortDescBy Ticket.createdAt (st.tickets.filter (fun t => t.createdBy = userId))

/-- `storage.getTicketsByAssignee`: tickets with `assignedTo = userId`. -/
def getTicketsByAssignee (st : Store) (userId : String) : List Ticket :=
  sortDescBy Ticket.createdAt (st.tickets.filter (fun t => t.assignedTo = some userId))

/-- `storage.getCommentsByTicket`: comments of one ticket, newest first;
the author join decorates each row with `findUser st c.userId`. -/
def getCommentsByTicket (st : Store) (ticketId : Nat) : List Comment :=
  sortDescBy Comment.createdAt (st.comments.filter (fun c => c.ticketId = ticketId))

/-- The joined record `storage.getTicketById` returns: the ticket row,
its creator row (left join on `createdBy`), its assignee row (left join
on `assignedTo`, null when unassigned), and its comments. -/
structure TicketFull where
  ticket : Ticket
  creator : Option User
  assignee : Option User
  comments : List Comment
deriving DecidableEq

/-- `storage.getTicketById`. -/
def getTicketById (st : Store) (id : Nat) : Option TicketFull :=
  match findTicket st id with
  | none => none
  | some t =>
    some { ticket := t
         , creator := findUser st t.createdBy
         , assignee := t.assignedTo.bind (fun a => findUser st a)
         , comments := getCommentsByTicket st id }

/-- Left-pad a string with zeros up to width 4
(`String(n).padStart(4, '0')`: pads, never truncates). -/
def padStart4 (s : String) : String :=
  String.mk (List.replicate (4 - s.length) '0') ++ s

/-- The ticket-number allocator inside `storage.createTicket`:
"TKT-" followed by (current ticket row count + 1), zero-padded to 4. -/
def ticketNumberFor (n : Nat) : String :=
  "TKT-" ++ padStart4 (toString n)

/-- Database-level failures surfaced by the store. -/
inductive DbError
  | uniqueViolation
  | fkViolation
deriving DecidableEq

/-- The foreign keys on ticket rows (`created_by references users.id`,
`assigned_to references users.id`): a stored or updated row must name an
existing user as creator, and as assignee when assigned. -/
def ticketFkOk (st : Store) (t : Ticket) : Bool :=
  st.users.any (fun u => u.id = t.createdBy) &&
    match t.assignedTo with
    | none => true
    | some a => st.users.any (fun u => u.id = a)

/-- The insert payload `storage.createTicket` receives
(`InsertTicket` minus `ticketNumber`; `id`/timestamps are column
defaults).  `status`, `department`, `assignedTo` are nullable columns the
insert schema lets the client set or omit. -/
structure InsertTicketFields where
  subject : String
  description : String
  priority : Priority
  status : Option (Option Status)
  category : Category
  department : Option (Option String)
  createdBy : String
  assignedTo : Option (Option String)
deriving DecidableEq

/-- An absent insert field takes the column default; an explicit null
stays null. -/
def withDefault (v : Option (Option α)) (d : Option α) : Option α :=
  v.getD d

/-- `storage.createTicket`: count the current ticket rows, allocate
`TKT-(count+1)` (zero-padded to 4), and insert.  The `unique().notNull()`
constraint on `ticket_number` makes the insert fail when a live row
already bears that number, and the `created_by`/`assigned_to` foreign
keys make it fail when the new row references a missing user. -/
def createTicket (st : Store) (f : InsertTicketFields) (now : Nat) :
    Except DbError (Store × Ticket) :=
  let ticketNumber := ticketNumberFor (st.tickets.length + 1)
  if st.tickets.any (fun t => t.ticketNumber = ticketNumber) then
    .error .uniqueViolation
  else
    let t : Ticket :=
      { id := st.ticketSeq
      , ticketNumber := ticketNumber
      , subject := f.subject
      , description := f.description
      , priority := f.priority
      , status := withDefault f.status (some .open_)
      , category := f.category
      , department := withDefault f.department none
      , createdBy := f.createdBy
      , assignedTo := withDefault f.assignedTo none
      , createdAt := some now
      , updatedAt := some now
      , resolvedAt := none
      , closedAt := none }
    if ticketFkOk st t then
      .ok ({ st with tickets := st.tickets ++ [t], ticketSeq := st.ticketSeq + 1 }, t)
    else
      .error .fkViolation

/-- The column assignments of one `storage.updateTicket` call: exactly
the keys present in the `updates` object (absent keys leave the column
untouched). -/
structure TicketUpdates where
  id : Option Nat := none
  subject : Option String := none
  description : Option String := none
  priority : Option Priority := none
  status : Option (Option Status) := none
  category : Option Category := none
  department : Option (Option String) := none
  createdBy : Option String := none
  assignedTo : Option (Option String) := none
  resolvedAt : Option (Option Nat) := none
  closedAt : Option (Option Nat) := none
deriving DecidableEq

/-- Apply an `UPDATE tickets SET ...` row transformation; `updatedAt` is
always set to now (`{ ...updates, updatedAt: new Date() }`). -/
def applyUpdates (t : Ticket) (u : TicketUpdates) (now : Nat) : Ticket :=
  { t with
    id := u.id.getD t.id
  , subject := u.subject.getD t.subject
  , description := u.description.getD t.description
  , priority := u.priority.getD t.priority
  , status := u.status.getD t.status
  , category := u.category.getD t.category
  , department := u.department.getD t.department
  , createdBy := u.createdBy.getD t.createdBy
  , assignedTo := u.assignedTo.getD t.assignedTo
  , resolvedAt := u.resolvedAt.getD t.resolvedAt
  , closedAt := u.closedAt.getD t.closedAt
  , updatedAt := some now }

/-- `storage.updateTicket`: update the row with the given id and return
it (`returning()`; no matching row yields no returned ticket).  The
`created_by`/`assigned_to` foreign keys reject an UPDATE whose new row
references a missing user: the statement fails and no row is changed. -/
def updateTicket (st : Store) (id : Nat) (u : TicketUpdates) (now : Nat) :
    Except DbError (Store × Option Ticket) :=
  let updated := (findTicket st id).map (fun t => applyUpdates t u now)
  if (match updated with | some t' => ticketFkOk st t' | none => true) then
    .ok ({ st with
      tickets := st.tickets.map (fun t => if t.id = id then applyUpdates t u now else t) }
    , updated)
  else
    .error .fkViolation

/-- `storage.deleteTicket`: `DELETE FROM tickets WHERE id = ?`.  Only the
tickets table is touched; the schema declares no ON DELETE action for
`comments.ticket_id`, so the store never cascades into comments. -/
def deleteTicket (st : Store) (id : Nat) : Store :=
  { st with tickets := st.tickets.filter (fun t => ¬ t.id = id) }

/-- The insert payload of `storage.createComment` (`insertCommentSchema`
output plus the route-supplied `ticketId`/`userId`). -/
structure InsertCommentFields where
  ticketId : Nat
  userId : String
  content : String
  isInternal : Option (Option Bool)
deriving DecidableEq

/-- `storage.createComment`: insert a comment row; `id` and `createdAt`
come from column defaults, `isInternal` defaults to false when absent. -/
def createComment (st : Store) (f : InsertCommentFields) (now : Nat) :
    Store × Comment :=
  let c : Comment :=
    { id := st.commentSeq
    , ticketId := f.ticketId
    , userId := f.userId
    , content := f.content
    , isInternal := withDefault f.isInternal (some false)
    , createdAt := some now }
  ({ st with comments := st.comments ++ [c], commentSeq := st.commentSeq + 1 }, c)

/-- The record `storage.getTicketStats` returns. -/
structure Stats where
  total : Nat
  open_ : Nat
  inProgress : Nat
  resolved : Nat
  closed : Nat
deriving DecidableEq

/-- The SQL boolean `tickets.status = 's'`: NULL exactly when `status`
is NULL, otherwise the comparison result. -/
def sqlEqStatus (x : Option Status) (s : Status) : Option Bool :=
  x.map (fun v => decide (v = s))

/-- SQL `COUNT(expr)`: the number of rows whose expression value is not
NULL (a FALSE boolean still counts). -/
def sqlCount (xs : List (Option Bool)) : Nat :=
  (xs.filter (fun b => b.isSome)).length

/-- `storage.getTicketStats`: one aggregate query computing `count()` for
`total` and `count(eq(tickets.status, s))` for each status bucket —
drizzle's `count(expr)` renders `COUNT(expr)`, which counts non-NULL
expression values, not TRUE ones. -/
def getTicketStats (st : Store) : Stats :=
  { total := st.tickets.length
  , open_ := sqlCount (st.tickets.map (fun t => sqlEqStatus t.status .open_))
  , inProgress := sqlCount (st.tickets.map (fun t => sqlEqStatus t.status .inProgress))
  , resolved := sqlCount (st.tickets.map (fun t => sqlEqStatus t.status .resolved))
  , closed := sqlCount (st.tickets.map (fun t => sqlEqStatus t.status .closed)) }

/-! ## Route handlers (`src/server/routes.ts`) and the email side channel
(`src/server/emailService.ts`).

A dispatched email is recorded as an `Event`; the SMTP send itself sits
in a try/catch whose failure is only logged, so delivery faults never
change control flow and are not modelled.  What can change control flow
is a TypeError thrown while building a message from a null join result
(`result.users!` is an unchecked assertion): that escapes the service and
trips the route's catch-all 500 handler after the write has persisted. -/

/-- One dispatched notification email. -/
inductive Event
  | createdEmail (recipients : List String)
  | closedEmail (recipient : String)
  | assignedEmail (recipient : String)
deriving DecidableEq

/-- `emailService.sendTicketClosedNotification`: skips (no event) when
the creator has no email on file; reading `.email` off a null creator
join throws, modelled as `.error`. -/
def sendTicketClosedNotificationEv (full : TicketFull) : Except Unit (Option Event) :=
  match full.creator with
  | none => .error ()
  | some c =>
    match c.email with
    | none => .ok none
    | some e => .ok (some (.closedEmail e))

/-- `emailService.sendTicketAssignedNotification` on `{...fullTicket,
assignee}`: skips when the (route-supplied) assignee has no email;
otherwise the message template reads the creator's name, throwing when
the creator join is null. -/
def sendTicketAssignedNotificationEv (full : TicketFull) (assignee : User) :
    Except Unit (Option Event) :=
  match assignee.email with
  | none => .ok none
  | some e =>
    match full.creator with
    | none => .error ()
    | some _ => .ok (some (.assignedEmail e))

/-- `GET /api/tickets`: admins get every ticket, everyone else the
tickets they created. -/
def listTicketsRoute (st : Store) (userId : String) : List Ticket :=
  if isAdminUser st userId then getAllTickets st else getTicketsByUser st userId

/-- Response of `GET /api/tickets/:id`. -/
inductive GetTicketResult
  | ok (full : TicketFull)
  | notFound
  | accessDenied
deriving DecidableEq

/-- `GET /api/tickets/:id`: 404 when the id is absent, 403 when the
caller is neither admin nor creator nor assignee, else the joined
record. -/
def getTicketRoute (st : Store) (userId : String) (ticketId : Nat) : GetTicketResult :=
  match getTicketById st ticketId with
  | none => .notFound
  | some full =>
    if ¬ isAdminUser st userId = true ∧ full.ticket.createdBy ≠ userId ∧
        full.ticket.assignedTo ≠ some userId then
      .accessDenied
    else
      .ok full

/-- Request body of `POST /api/tickets` as `insertTicketSchema` types it:
`subject`/`description`/`priority`/`category` required, the nullable
columns optional; any client-sent `createdBy` is overwritten with the
authenticated user id before validation. -/
structure TicketBody where
  subject : Option String := none
  description : Option String := none
  priority : Option Priority := none
  status : Option (Option Status) := none
  category : Option Category := none
  department : Option (Option String) := none
  createdBy : Option String := none
  assignedTo : Option (Option String) := none
deriving DecidableEq

/-- Response of `POST /api/tickets`. -/
inductive PostTicketResult
  | ok (t : Ticket)
  | validationError
  | serverError
deriving DecidableEq

/-- `POST /api/tickets`: validate (the four non-defaulted columns must be
present), force `createdBy := userId`, insert.  A database error (unique
ticket-number violation) surfaces as the catch-all 500.  The follow-up
broadcast to admin emails only dispatches mail and never alters ticket
state; no claim concerns it, so its event is not tracked here. -/
def postTicketRoute (st : Store) (userId : String) (body : TicketBody) (now : Nat) :
    Store × PostTicketResult :=
  match body.subject, body.description, body.priority, body.category with
  | some subj, some descr, some prio, some cat =>
    match createTicket st
        { subject := subj
        , description := descr
        , priority := prio
        , status := body.status
        , category := cat
        , department := body.department
        , createdBy := userId
        , assignedTo := body.assignedTo } now with
    | .error _ => (st, .serverError)
    | .ok (st', t) => (st', .ok t)
  | _, _, _, _ => (st, .validationError)

/-- Request body of `PATCH /api/tickets/:id` as `updateTicketSchema`
types it: every insert-schema field made optional, plus `id`.  The route
builds `{id: ticketId, ...req.body}`, so a body-supplied `id` overrides
the path parameter.  `ticketNumber`, `createdAt`, `updatedAt`,
`resolvedAt`, `closedAt` are omitted by the schema and stripped. -/
structure UpdateBody where
  id : Option Nat := none
  subject : Option String := none
  description : Option String := none
  priority : Option Priority := none
  status : Option (Option Status) := none
  category : Option Category := none
  department : Option (Option String) := none
  createdBy : Option String := none
  assignedTo : Option (Option String) := none
deriving DecidableEq

/-- Response of `PATCH /api/tickets/:id`.  `serverError` is the catch-all
500: reached when the UPDATE itself fails (foreign-key violation, state
unchanged), or when a null creator join crashes message rendering after
the update has already persisted. -/
inductive PatchResult
  | ok (t : Ticket)
  | notFound
  | accessDenied
  | serverError
deriving DecidableEq

/-- The `updates` object the PATCH handler passes to
`storage.updateTicket`: the validated body fields, plus `resolvedAt`
stamped when the request sets status resolved and the column is still
null, plus `closedAt` stamped likewise. -/
def patchUpdates (ticket : Ticket) (body : UpdateBody) (ticketId : Nat) (now : Nat) :
    TicketUpdates :=
  { id := some (body.id.getD ticketId)
  , subject := body.subject
  , description := body.description
  , priority := body.priority
  , status := body.status
  , category := body.category
  , department := body.department
  , createdBy := body.createdBy
  , assignedTo := body.assignedTo
  , resolvedAt :=
      if body.status = some (some .resolved) ∧ ticket.resolvedAt = none
      then some (some now) else none
  , closedAt :=
      if body.status = some (some .closed) ∧ ticket.closedAt = none
      then some (some now) else none }

/-- `PATCH /api/tickets/:id`: 404 when absent; 403 unless the caller is
an admin or the current assignee; merge the requested fields through
`storage.updateTicket`; then dispatch the closure notification when the
request sets status closed on a previously non-closed ticket, and the
assignment notification when it carries a non-empty `assignedTo`
different from the prior one and that user exists. -/
def patchTicketRoute (st : Store) (userId : String) (ticketId : Nat)
    (body : UpdateBody) (now : Nat) : Store × PatchResult × List Event :=
  match getTicketById st ticketId with
  | none => (st, .notFound, [])
  | some full =>
    let ticket := full.ticket
    if ¬ isAdminUser st userId = true ∧ ticket.assignedTo ≠ some userId then
      (st, .accessDenied, [])
    else
      match updateTicket st ticketId (patchUpdates ticket body ticketId now) now with
      | .error _ => (st, .serverError, [])
      | .ok (st', none) => (st', .serverError, [])
      | .ok (st', some updated) =>
        let closedStep : Except Unit (List Event) :=
          if body.status = some (some .closed) ∧ ticket.status ≠ some .closed then
            match getTicketById st' ticketId with
            | none => .ok []
            | some full' => (sendTicketClosedNotificationEv full').map Option.toList
          else
            .ok []
        match closedStep with
        | .error _ => (st', .serverError, [])
        | .ok evs =>
          match body.assignedTo with
          | some (some a) =>
            if a ≠ "" ∧ ticket.assignedTo ≠ some a then
              match findUser st' a with
              | none => (st', .ok updated, evs)
              | some assignee =>
                match getTicketById st' ticketId with
                | none => (st', .ok updated, evs)
                | some full' =>
                  match sendTicketAssignedNotificationEv full' assignee with
                  | .error _ => (st', .serverError, evs)
                  | .ok o => (st', .ok updated, evs ++ o.toList)
            else
              (st', .ok updated, evs)
          | _ => (st', .ok updated, evs)

/-- Request body of `POST /api/tickets/:id/comments` as
`insertCommentSchema` types it: `content` a required string (any string,
no length bound), `isInternal` optional nullable; `ticketId` and
`userId` are overwritten by the route before validation. -/
structure CommentBody where
  content : Option String := none
  isInternal : Option (Option Bool) := none
deriving DecidableEq

/-- Response of `POST /api/tickets/:id/comments`. -/
inductive PostCommentResult
  | ok (c : Comment)
  | notFound
  | accessDenied
  | validationError
deriving DecidableEq

/-- `POST /api/tickets/:id/comments`: 404 when the ticket is absent, 403
unless admin/creator/assignee, 400 when `content` is missing, else the
comment is inserted. -/
def postCommentRoute (st : Store) (userId : String) (ticketId : Nat)
    (body : CommentBody) (now : Nat) : Store × PostCommentResult :=
  match getTicketById st ticketId with
  | none => (st, .notFound)
  | some full =>
    if ¬ isAdminUser st userId = true ∧ full.ticket.createdBy ≠ userId ∧
        full.ticket.assignedTo ≠ some userId then
      (st, .accessDenied)
    else
      match body.content with
      | none => (st, .validationError)
      | some c =>
        let r := createComment st
          { ticketId := ticketId, userId := userId, content := c
          , isInternal := body.isInternal } now
        (r.1, .ok r.2)

/-! ## Concrete fixtures used by counterexamples and witnesses -/

/-- The ticket returned by a successful PATCH response, when there is one. -/
def patchedTicket (r : Store × PatchResult × List Event) : Option Ticket :=
  match r.2.1 with
  | .ok t => some t
  | _ => none

/-- The comment returned by a successful comment POST, when there is one. -/
def postedComment (r : Store × PostCommentResult) : Option Comment :=
  match r.2 with
  | .ok c => some c
  | _ => none

/-- Fixture: an administrator. -/
def userAdmin : User :=
  { id := "a", email := some "a@x", firstName := some "A", lastName := none
  , profileImageUrl := none, role := some "admin", department := none
  , createdAt := some 0, updatedAt := some 0 }

/-- Fixture: employee e1. -/
def userE1 : User :=
  { id := "e1", email := some "e1@x", firstName := some "E", lastName := none
  , profileImageUrl := none, role := some "employee", department := none
  , createdAt := some 0, updatedAt := some 0 }

/-- Fixture: employee e2. -/
def userE2 : User :=
  { id := "e2", email := some "e2@x", firstName := some "F", lastName := none
  , profileImageUrl := none, role := some "employee", department := none
  , createdAt := some 0, updatedAt := some 0 }

/-- Fixture: employee e3. -/
def userE3 : User :=
  { id := "e3", email := some "e3@x", firstName := some "G", lastName := none
  , profileImageUrl := none, role := some "employee", department := none
  , createdAt := some 0, updatedAt := some 0 }

/-- Fixture: a ticket created by e1 and assigned to e2. -/
def tick1 : Ticket :=
  { id := 1, ticketNumber := "TKT-0001", subject := "s", description := "d"
  , priority := .low, status := some .open_, category := .other
  , department := none, createdBy := "e1", assignedTo := some "e2"
  , createdAt := some 1, updatedAt := some 1, resolvedAt := none, closedAt := none }

/-- Fixture: a second ticket, created by e2, unassigned. -/
def tick2 : Ticket :=
  { id := 2, ticketNumber := "TKT-0002", subject := "s2", description := "d2"
  , priority := .high, status := some .closed, category := .network
  , department := none, createdBy := "e2", assignedTo := none
  , createdAt := some 2, updatedAt := some 2, resolvedAt := none, closedAt := some 2 }

/-- Fixture: a store with one admin, three employees and two tickets. -/
def baseStore : Store :=
  { users := [userAdmin, userE1, userE2, userE3]
  , tickets := [tick1, tick2], comments := [], ticketSeq := 3, commentSeq := 1 }

/-- Fixture: a store with only the admin user and no tickets. -/
def emptyStore : Store :=
  { users := [userAdmin], tickets := [], comments := [], ticketSeq := 1, commentSeq := 1 }

/-- Fixture: a plain insert payload (no explicit status), created by the
admin "a", who exists in `emptyStore`. -/
def insPlain : InsertTicketFields :=
  { subject := "s", description := "d", priority := .low, status := none
  , category := .other, department := none, createdBy := "a", assignedTo := none }

/-- Create a ticket in the empty store, delete it, create again: the
second creation recomputes `count + 1` from the shrunken store. -/
def numberReuseRun : Except DbError (String × String) := do
  let p1 ← createTicket emptyStore insPlain 10
  let st2 := deleteTicket p1.1 p1.2.id
  let p3 ← createTicket st2 insPlain 20
  pure (p1.2.ticketNumber, p3.2.ticketNumber)

/-- Fixture: the store and ticket produced by `createTicket emptyStore insPlain 10`. -/
def createdPlain : Ticket :=
  { id := 1, ticketNumber := "TKT-0001", subject := "s", description := "d"
  , priority := .low, status := some .open_, category := .other
  , department := none, createdBy := "a", assignedTo := none
  , createdAt := some 10, updatedAt := some 10, resolvedAt := none, closedAt := none }

/-- The post-insert store matching `createdPlain`. -/
def createdPlainStore : Store :=
  { users := [userAdmin], tickets := [createdPlain], comments := []
  , ticketSeq := 2, commentSeq := 1 }

/-- Fixture: a creation body that sets status to resolved at creation
(`insertTicketSchema` includes `status`, so the API accepts this). -/
def bodyCreateResolved : TicketBody :=
  { subject := some "s", description := some "d", priority := some .low
  , category := some .other, status := some (some .resolved) }

/-- Fixture: a creation body that sets status to closed at creation. -/
def bodyCreateClosed : TicketBody :=
  { subject := some "s", description := some "d", priority := some .low
  , category := some .other, status := some (some .closed) }

/-- Fixture: a patch body requesting status resolved. -/
def bodyPatchResolved : UpdateBody := { status := some (some .resolved) }

/-- Fixture: a patch body requesting status closed. -/
def bodyPatchClosed : UpdateBody := { status := some (some .closed) }

/-- Create a ticket already in status resolved (admin caller), then patch
its status to resolved again; record the created ticket's status and
`resolvedAt`, and the patched ticket's `resolvedAt`. -/
def resolvedStampRun : Option ((Option Status × Option Nat) × Option Nat) :=
  match postTicketRoute emptyStore "a" bodyCreateResolved 1 with
  | (st1, .ok t1) =>
    match patchedTicket (patchTicketRoute st1 "a" t1.id bodyPatchResolved 5) with
    | some u => some ((t1.status, t1.resolvedAt), u.resolvedAt)
    | none => none
  | _ => none

/-- Create a ticket already in status closed, then patch its status to
closed again; record the created ticket's status and `closedAt`, the
patched ticket's `closedAt`, and the events the patch dispatched. -/
def closedStampRun : Option ((Option Status × Option Nat) × (Option Nat × List Event)) :=
  match postTicketRoute emptyStore "a" bodyCreateClosed 1 with
  | (st1, .ok t1) =>
    let r := patchTicketRoute st1 "a" t1.id bodyPatchClosed 7
    match patchedTicket r with
    | some u => some ((t1.status, t1.closedAt), (u.closedAt, r.2.2))
    | none => none
  | _ => none

/-- Fixture: `tick1` after the assignee e2 reassigns it to e3 at time 5. -/
def tick1Reassigned : Ticket :=
  { tick1 with assignedTo := some "e3", updatedAt := some 5 }

/-- Fixture: `tick1` after an update to status resolved at time 5. -/
def tick1Resolved : Ticket :=
  { tick1 with status := some .resolved, resolvedAt := some 5, updatedAt := some 5 }

/-- Fixture: `tick2` (already closed) after a second close at time 9. -/
def tick2Reclosed : Ticket :=
  { tick2 with updatedAt := some 9 }

/-- Fixture: the ticket `postTicketRoute emptyStore "a" bodyCreateResolved 1`
creates (status resolved from birth, `resolvedAt` null). -/
def tickResolvedCreated : Ticket :=
  { id := 1, ticketNumber := "TKT-0001", subject := "s", description := "d"
  , priority := .low, status := some .resolved, category := .other
  , department := none, createdBy := "a", assignedTo := none
  , createdAt := some 1, updatedAt := some 1, resolvedAt := none, closedAt := none }

/-- Fixture: the store holding `tickResolvedCreated`. -/
def stResolvedCreated : Store :=
  { users := [userAdmin], tickets := [tickResolvedCreated], comments := []
  , ticketSeq := 2, commentSeq := 1 }

/-- Fixture: the comment stored when e1 posts an empty-content comment on
ticket 1 at time 5. -/
def emptyComment : Comment :=
  { id := 1, ticketId := 1, userId := "e1", content := ""
  , isInternal := some false, createdAt := some 5 }

/-- Fixture: `baseStore` after `emptyComment` is inserted. -/
def baseStoreWithComment : Store :=
  { baseStore with comments := [emptyComment], commentSeq := 2 }

/-! ## Helper lemmas -/

theorem insertBy_perm (before : α → α → Bool) (a : α) (l : List α) :
    (insertBy before a l).Perm (a :: l) := by
  induction l with
  | nil => exact List.Perm.refl _
  | cons b bs ih =>
    unfold insertBy
    by_cases h : before a b = true
    · rw [if_pos h]
    · rw [if_neg h]
      exact (ih.cons b).trans (List.Perm.swap a b bs)

theorem sortBy_perm (before : α → α → Bool) (l : List α) :
    (sortBy before l).Perm l := by
  induction l with
  | nil => exact List.Perm.refl _
  | cons a as ih =>
    exact (insertBy_perm before a (sortBy before as)).trans (ih.cons a)

theorem sortDescBy_perm (key : α → Option Nat) (l : List α) :
    (sortDescBy key l).Perm l :=
  sortBy_perm _ l

theorem mem_sortDescBy {key : α → Option Nat} {l : List α} {a : α} :
    a ∈ sortDescBy key l ↔ a ∈ l :=
  (sortDescBy_perm key l).mem_iff

/-- Every status bucket of the aggregate counts the rows whose `status`
column is non-NULL, whatever status the bucket names. -/
theorem sqlCount_map_status (l : List Ticket) (s : Status) :
    sqlCount (l.map (fun t => sqlEqStatus t.status s)) =
      (l.filter (fun t => t.status.isSome)).length := by
  induction l with
  | nil => rfl
  | cons t ts ih =>
    simp only [List.map_cons, sqlCount, List.filter_cons, sqlEqStatus] at *
    cases t.status <;> simp [ih]

/-- The assignment notifier never produces a closure event. -/
theorem sendAssigned_no_closedEmail (full : TicketFull) (a : User) (o : Option Event)
    (h : sendTicketAssignedNotificationEv full a = .ok o) (r : String) :
    Event.closedEmail r ∉ o.toList := by
  unfold sendTicketAssignedNotificationEv at h
  repeat' split at h
  all_goals simp_all
  all_goals (subst h; simp)

/-- Characterization of a successful PATCH: the response ticket is the
stored row merged with exactly the validated body fields (plus the
timestamp stamps of `patchUpdates`). -/
theorem patch_ok_spec (st : Store) (uid : String) (tid : Nat) (body : UpdateBody)
    (now : Nat) (u : Ticket)
    (h : patchedTicket (patchTicketRoute st uid tid body now) = some u) :
    ∃ t, findTicket st tid = some t ∧
      u = applyUpdates t (patchUpdates t body tid now) now := by
  unfold patchedTicket at h
  split at h
  case h_2 => simp at h
  case h_1 u' heq =>
    rw [Option.some_inj] at h
    subst h
    unfold patchTicketRoute at heq
    simp only [getTicketById] at heq
    cases hft : findTicket st tid with
    | none => simp only [hft] at heq; simp at heq
    | some t =>
      simp only [hft] at heq
      refine ⟨t, rfl, ?_⟩
      split at heq
      · simp at heq
      · simp only [updateTicket, hft, Option.map_some'] at heq
        by_cases hfk : ticketFkOk st (applyUpdates t (patchUpdates t body tid now) now) = true
        · simp only [if_pos hfk] at heq
          repeat' split at heq
          all_goals simp_all
        · simp only [if_neg hfk] at heq
          simp at heq

/-- A closure notification is only dispatched when the request sets
status closed and the stored ticket was not closed before. -/
theorem patch_closedEmail_inv (st : Store) (uid : String) (tid : Nat)
    (body : UpdateBody) (now : Nat) (r : String)
    (h : Event.closedEmail r ∈ (patchTicketRoute st uid tid body now).2.2) :
    body.status = some (some .closed) ∧
      ∃ t, findTicket st tid = some t ∧ t.status ≠ some .closed := by
  unfold patchTicketRoute at h
  simp only [getTicketById] at h
  cases hft : findTicket st tid with
  | none => simp only [hft] at h; simp at h
  | some t =>
    simp only [hft] at h
    split at h
    · simp at h
    · simp only [updateTicket, hft, Option.map_some'] at h
      by_cases hfk : ticketFkOk st (applyUpdates t (patchUpdates t body tid now) now) = true
      · simp only [if_pos hfk] at h
        by_cases hc : body.status = some (some Status.closed) ∧ t.status ≠ some Status.closed
        · exact ⟨hc.1, t, rfl, hc.2⟩
        · rw [if_neg hc] at h
          exfalso
          repeat' split at h
          all_goals simp_all
          all_goals (rename_i heqA; exact sendAssigned_no_closedEmail _ _ _ heqA r (by simp))
      · simp only [if_neg hfk] at h
        simp at h

/-- A successful `storage.createTicket` stores exactly the payload plus
allocated number, defaults, and timestamps. -/
theorem createTicket_ok_fields (st : Store) (f : InsertTicketFields) (now : Nat)
    (st' : Store) (t : Ticket) (h : createTicket st f now = .ok (st', t)) :
    t = { id := st.ticketSeq
        , ticketNumber := ticketNumberFor (st.tickets.length + 1)
        , subject := f.subject, description := f.description
        , priority := f.priority, status := withDefault f.status (some .open_)
        , category := f.category, department := withDefault f.department none
        , createdBy := f.createdBy, assignedTo := withDefault f.assignedTo none
        , createdAt := some now, updatedAt := some now
        , resolvedAt := none, closedAt := none } := by
  simp only [createTicket] at h
  split at h
  · simp at h
  · split at h
    · simp_all
    · simp at h

/-- All four status buckets of the aggregate compute the same number:
the count of rows whose `status` column is non-NULL. -/
theorem getTicketStats_buckets (st : Store) :
    (getTicketStats st).open_ = (st.tickets.filter (fun t => t.status.isSome)).length ∧
    (getTicketStats st).inProgress = (getTicketStats st).open_ ∧
    (getTicketStats st).resolved = (getTicketStats st).open_ ∧
    (getTicketStats st).closed = (getTicketStats st).open_ := by
  simp [getTicketStats, sqlCount_map_status]

/-! ## Claim theorems -/

/-- C10: `deleteTicket` touches only the tickets table: for every store
and id, the comments (and users) after the call are exactly those before,
so every comment — same `ticketId`, author and content — survives, even
when it references the deleted ticket. -/
theorem deleteTicket_comments_frame (st : Store) (id : Nat) :
    (deleteTicket st id).comments = st.comments ∧
    (deleteTicket st id).users = st.users :=
  ⟨rfl, rfl⟩

/-- C2 (code bug), evaluated at the failing input: `baseStore` holds two
tickets, one open and one closed, yet every status bucket of
`getTicketStats` reports 2, because `count(eq(status, s))` counts
non-NULL rows rather than TRUE ones; the four buckets sum to 8 ≠ 2. -/
theorem getTicketStats_miscounts_eval :
    baseStore.tickets.map Ticket.status = [some .open_, some .closed] ∧
    getTicketStats baseStore =
      { total := 2, open_ := 2, inProgress := 2, resolved := 2, closed := 2 } ∧
    (getTicketStats baseStore).open_ + (getTicketStats baseStore).inProgress +
        (getTicketStats baseStore).resolved + (getTicketStats baseStore).closed ≠
      (getTicketStats baseStore).total := by
  decide

/-- C4 counterexample: create a ticket in an empty store (it gets
TKT-0001), delete it, create another — the new ticket is assigned
TKT-0001 again, the number of the since-deleted ticket. -/
theorem ticketNumber_reuse_cex :
    numberReuseRun = .ok ("TKT-0001", "TKT-0001") := by
  rfl

/-- C4 amended: a successful `createTicket` allocates
`TKT-(live count + 1)` (zero-padded to width 4) and that number is
distinct from the numbers of all currently live tickets (the unique
constraint aborts the insert otherwise) — but the count shrinks on
delete, so numbers of deleted tickets can be reused. -/
theorem createTicket_number_spec (st : Store) (f : InsertTicketFields) (now : Nat)
    (st' : Store) (t : Ticket) (h : createTicket st f now = .ok (st', t)) :
    t.ticketNumber = ticketNumberFor (st.tickets.length + 1) ∧
    ∀ t' ∈ st.tickets, t'.ticketNumber ≠ t.ticketNumber := by
  have hf := createTicket_ok_fields st f now st' t h
  constructor
  · rw [hf]
  · intro t' ht' heq
    simp only [createTicket] at h
    split at h
    · simp at h
    · rename_i hany
      rw [List.any_eq_true] at hany
      exact hany ⟨t', ht', by rw [hf] at heq; simpa using heq⟩

/-- Witness for C4's amended theorem at a concrete creation. -/
theorem createTicket_number_spec_witness :
    createdPlain.ticketNumber = ticketNumberFor (emptyStore.tickets.length + 1) :=
  (createTicket_number_spec emptyStore insPlain 10 createdPlainStore createdPlain rfl).1

/-- C1 counterexample: e2 is not an admin and is the assignee of ticket
1; PATCHing with `assignedTo = "e3"` succeeds and the stored assignee
becomes e3 — the requested reassignment IS applied by a non-admin. -/
theorem assignee_reassign_cex :
    isAdminUser baseStore "e2" = false ∧
    (findTicket baseStore 1).map Ticket.assignedTo = some (some "e2") ∧
    patchedTicket (patchTicketRoute baseStore "e2" 1
        { assignedTo := some (some "e3") } 5) = some tick1Reassigned ∧
    tick1Reassigned.assignedTo = some "e3" := by
  decide

/-- C1 amended: whenever a PATCH succeeds — the route authorizes admins
and the current assignee alike — a requested `assignedTo` value is
applied verbatim, whoever the caller is; reassignment is not restricted
to admins. -/
theorem patch_applies_assignedTo (st : Store) (uid : String) (tid : Nat)
    (body : UpdateBody) (now : Nat) (a : Option String) (u : Ticket)
    (hbody : body.assignedTo = some a)
    (hres : patchedTicket (patchTicketRoute st uid tid body now) = some u) :
    u.assignedTo = a := by
  obtain ⟨t, hft, hu⟩ := patch_ok_spec st uid tid body now u hres
  subst hu
  simp [applyUpdates, patchUpdates, hbody]

/-- Witness for C1's amended theorem: the non-admin assignee e2
successfully reassigns ticket 1 to e3. -/
theorem patch_applies_assignedTo_witness :
    tick1Reassigned.assignedTo = some "e3" :=
  patch_applies_assignedTo baseStore "e2" 1 { assignedTo := some (some "e3") } 5
    (some "e3") tick1Reassigned rfl (by decide)

/-- C3 counterexample: ticket 1 was created by e1, but a PATCH whose body
carries `createdBy = "e3"` (an existing user, so the foreign key is
satisfied) passes `updateTicketSchema` and the route stores it —
`createdBy` is mutable through `updateTicket`. -/
theorem createdBy_mutable_cex :
    (findTicket baseStore 1).map Ticket.createdBy = some "e1" ∧
    (patchedTicket (patchTicketRoute baseStore "a" 1
        { createdBy := some "e3" } 5)).map Ticket.createdBy = some "e3" := by
  decide

/-- C3 amended: `createdBy` is forced to the caller's id at creation, and
is preserved by every update whose body omits `createdBy`; but the update
schema also accepts a `createdBy` field and the route applies it, so a
request naming `createdBy` changes it. -/
theorem createdBy_spec :
    (∀ (st : Store) (uid : String) (body : TicketBody) (now : Nat)
        (r : Store × PostTicketResult) (t : Ticket),
        postTicketRoute st uid body now = r → r.2 = .ok t → t.createdBy = uid) ∧
    (∀ (st : Store) (uid : String) (tid : Nat) (body : UpdateBody) (now : Nat)
        (t u : Ticket),
        findTicket st tid = some t → body.createdBy = none →
        patchedTicket (patchTicketRoute st uid tid body now) = some u →
        u.createdBy = t.createdBy) := by
  constructor
  · intro st uid body now r t hr hok
    subst hr
    unfold postTicketRoute at hok
    split at hok
    · split at hok
      · simp at hok
      · rename_i st' t' heqC
        simp only at hok
        rw [PostTicketResult.ok.injEq] at hok
        subst hok
        rw [createTicket_ok_fields _ _ _ _ _ heqC]
    · simp at hok
  · intro st uid tid body now t u hft hnone hres
    obtain ⟨t', hft', hu⟩ := patch_ok_spec st uid tid body now u hres
    rw [hft] at hft'
    rw [Option.some_inj] at hft'
    subst hft'
    subst hu
    simp [applyUpdates, patchUpdates, hnone]

/-- Witness for C3's amended theorem: a route-level creation by "a"
stores `createdBy = "a"`, and an update that omits `createdBy` preserves
e1 as the creator of ticket 1. -/
theorem createdBy_spec_witness :
    tickResolvedCreated.createdBy = "a" ∧ tick1Resolved.createdBy = tick1.createdBy :=
  ⟨createdBy_spec.1 emptyStore "a" bodyCreateResolved 1
      (stResolvedCreated, .ok tickResolvedCreated) tickResolvedCreated (by decide) rfl,
   createdBy_spec.2 baseStore "a" 1 bodyPatchResolved 5 tick1 tick1Resolved
      (by decide) rfl (by decide)⟩

/-- C5 counterexample: e1 (the creator of ticket 1) posts a comment with
`content = ""`; validation passes (`z.string()` has no length bound), the
route answers 201, and a comment record with empty content is stored. -/
theorem addComment_empty_content_cex :
    (postCommentRoute baseStore "e1" 1 { content := some "" } 5).2 = .ok emptyComment ∧
    emptyComment.content = "" ∧
    (postCommentRoute baseStore "e1" 1 { content := some "" } 5).1.comments =
      [emptyComment] := by
  decide

/-- C5 amended: `addComment` rejects only an absent `content` field
(nothing stored); any provided string — the empty string included — is
accepted and stored verbatim. -/
theorem addComment_content_spec :
    (∀ (st : Store) (uid : String) (tid : Nat) (body : CommentBody) (now : Nat)
        (st' : Store) (cm : Comment),
        postCommentRoute st uid tid body now = (st', .ok cm) →
        some cm.content = body.content ∧ st'.comments = st.comments ++ [cm]) ∧
    (∀ (st : Store) (uid : String) (tid : Nat) (body : CommentBody) (now : Nat),
        body.content = none → (postCommentRoute st uid tid body now).1 = st) := by
  constructor
  · intro st uid tid body now st' cm h
    unfold postCommentRoute at h
    repeat' split at h
    all_goals simp_all [createComment]
    obtain ⟨hst, hcm⟩ := h
    subst hst
    subst hcm
    simp
  · intro st uid tid body now hnone
    unfold postCommentRoute
    repeat' split
    all_goals simp_all

/-- Witness for C5's amended theorem: the empty-string comment is
accepted and appended, while a body with no content changes nothing. -/
theorem addComment_content_spec_witness :
    (some emptyComment.content = ({ content := some "" } : CommentBody).content ∧
      baseStoreWithComment.comments = baseStore.comments ++ [emptyComment]) ∧
    (postCommentRoute baseStore "e1" 1 { content := none } 5).1 = baseStore :=
  ⟨addComment_content_spec.1 baseStore "e1" 1 { content := some "" } 5
      baseStoreWithComment emptyComment (by decide),
   addComment_content_spec.2 baseStore "e1" 1 { content := none } 5 rfl⟩

/-- C6 counterexample: a ticket created through the API with status
resolved (`resolvedAt` null) is then updated with status resolved again —
no transition into resolved ever happens, yet the update stamps
`resolvedAt = 5`. -/
theorem resolvedAt_no_transition_cex :
    resolvedStampRun = some ((some .resolved, none), some 5) := by
  decide

/-- C6 amended: after any successful update, `resolvedAt` equals `now`
when the request set status resolved while `resolvedAt` was still null
(the stamp fires even without a transition, e.g. on a ticket created
resolved), and is otherwise returned unchanged — in particular it stays
constant once set, across transitions away from and back to resolved. -/
theorem patch_resolvedAt_spec (st : Store) (uid : String) (tid : Nat)
    (body : UpdateBody) (now : Nat) (t u : Ticket)
    (hft : findTicket st tid = some t)
    (hres : patchedTicket (patchTicketRoute st uid tid body now) = some u) :
    u.resolvedAt =
      if body.status = some (some .resolved) ∧ t.resolvedAt = none
      then some now else t.resolvedAt := by
  obtain ⟨t', hft', hu⟩ := patch_ok_spec st uid tid body now u hres
  rw [hft] at hft'
  rw [Option.some_inj] at hft'
  subst hft'
  subst hu
  by_cases hcond : body.status = some (some Status.resolved) ∧ t.resolvedAt = none <;>
    simp [applyUpdates, patchUpdates, hcond]

/-- Witness for C6's amended theorem: updating ticket 1 (not resolved,
`resolvedAt` null) to resolved at time 5 stamps `resolvedAt = 5`. -/
theorem patch_resolvedAt_spec_witness :
    tick1Resolved.resolvedAt =
      (if bodyPatchResolved.status = some (some Status.resolved) ∧ tick1.resolvedAt = none
       then some 5 else tick1.resolvedAt) :=
  patch_resolvedAt_spec baseStore "a" 1 bodyPatchResolved 5 tick1 tick1Resolved
    (by decide) (by decide)

/-- C7 counterexample: a ticket created through the API with status
closed has `closedAt` null; a second close (status closed again) emits no
closure notification but stamps `closedAt = 7` — `closedAt` does NOT stay
unchanged. -/
theorem second_close_stamps_closedAt_cex :
    closedStampRun = some ((some .closed, none), (some 7, [])) := by
  decide

/-- C7 amended: updating a ticket that is already in status closed never
dispatches a (second) closure notification, and leaves `closedAt`
unchanged whenever it was already set; only when the already-closed
ticket still has `closedAt` null (created closed) does the update stamp
it. -/
theorem patch_second_close_spec (st : Store) (uid : String) (tid : Nat)
    (body : UpdateBody) (now : Nat) (t : Ticket)
    (hft : findTicket st tid = some t)
    (hclosed : t.status = some .closed) :
    (∀ r : String, Event.closedEmail r ∉ (patchTicketRoute st uid tid body now).2.2) ∧
    (∀ u, patchedTicket (patchTicketRoute st uid tid body now) = some u →
      u.closedAt =
        if body.status = some (some .closed) ∧ t.closedAt = none
        then some now else t.closedAt) := by
  constructor
  · intro r hmem
    obtain ⟨-, t', hft', hne⟩ := patch_closedEmail_inv st uid tid body now r hmem
    rw [hft] at hft'
    rw [Option.some_inj] at hft'
    subst hft'
    exact hne hclosed
  · intro u hres
    obtain ⟨t', hft', hu⟩ := patch_ok_spec st uid tid body now u hres
    rw [hft] at hft'
    rw [Option.some_inj] at hft'
    subst hft'
    subst hu
    by_cases hcond : body.status = some (some Status.closed) ∧ t.closedAt = none <;>
      simp [applyUpdates, patchUpdates, hcond]

/-- Witness for C7's amended theorem: re-closing ticket 2 (closed, with
`closedAt = 2`) at time 9 dispatches no closure email to its creator and
leaves `closedAt = 2`. -/
theorem patch_second_close_spec_witness :
    Event.closedEmail "e2@x" ∉ (patchTicketRoute baseStore "a" 2 bodyPatchClosed 9).2.2 ∧
    tick2Reclosed.closedAt =
      (if bodyPatchClosed.status = some (some Status.closed) ∧ tick2.closedAt = none
       then some 9 else tick2.closedAt) :=
  ⟨(patch_second_close_spec baseStore "a" 2 bodyPatchClosed 9 tick2
      (by decide) (by decide)).1 "e2@x",
   (patch_second_close_spec baseStore "a" 2 bodyPatchClosed 9 tick2
      (by decide) (by decide)).2 tick2Reclosed (by decide)⟩

/-- C8: the ticket listing. An admin receives every ticket (as a
permutation — the route only reorders by `createdAt`); a non-admin
receives exactly the tickets they created: every listed ticket has
`createdBy = uid`, every stored ticket with `createdBy = uid` is listed,
and tickets merely assigned to the caller are not (they fail the
`createdBy` filter). -/
theorem listTickets_spec (st : Store) (uid : String) :
    (isAdminUser st uid = true → (listTicketsRoute st uid).Perm st.tickets) ∧
    (isAdminUser st uid = false →
      (∀ t ∈ listTicketsRoute st uid, t.createdBy = uid) ∧
      (∀ t ∈ st.tickets, t.createdBy = uid → t ∈ listTicketsRoute st uid)) := by
  constructor
  · intro h
    unfold listTicketsRoute
    rw [if_pos h]
    exact sortDescBy_perm _ _
  · intro h
    have hl : listTicketsRoute st uid = getTicketsByUser st uid := by
      unfold listTicketsRoute
      rw [if_neg (by simp [h])]
    constructor
    · intro t ht
      rw [hl, getTicketsByUser, mem_sortDescBy, List.mem_filter] at ht
      simpa using ht.2
    · intro t ht hcb
      rw [hl, getTicketsByUser, mem_sortDescBy, List.mem_filter]
      exact ⟨ht, by simp [hcb]⟩

/-- Witness for C8: the non-admin e1 is shown `tick1`, which they
created; the admin listing is a permutation of the whole store. -/
theorem listTickets_spec_witness :
    tick1 ∈ listTicketsRoute baseStore "e1" ∧
    (listTicketsRoute baseStore "a").Perm baseStore.tickets :=
  ⟨((listTickets_spec baseStore "e1").2 (by decide)).2 tick1 (by decide) (by decide),
   (listTickets_spec baseStore "a").1 (by decide)⟩

/-- C9: `GET /api/tickets/:id` yields NotFound exactly when the id is
absent; for a stored ticket it yields AccessDenied exactly when the
caller is no admin and neither creator nor assignee, and otherwise
returns the ticket joined with its creator, assignee and comments. -/
theorem getTicket_spec (st : Store) (uid : String) (tid : Nat) :
    (getTicketRoute st uid tid = .notFound ↔ findTicket st tid = none) ∧
    (∀ t, findTicket st tid = some t →
      (getTicketRoute st uid tid = .accessDenied ↔
        isAdminUser st uid = false ∧ t.createdBy ≠ uid ∧ t.assignedTo ≠ some uid)) ∧
    (∀ t, findTicket st tid = some t →
      (isAdminUser st uid = true ∨ t.createdBy = uid ∨ t.assignedTo = some uid) →
      getTicketRoute st uid tid = .ok
        { ticket := t
        , creator := findUser st t.createdBy
        , assignee := t.assignedTo.bind (fun a => findUser st a)
        , comments := getCommentsByTicket st tid }) := by
  unfold getTicketRoute getTicketById
  cases hft : findTicket st tid with
  | none => simp
  | some t =>
    simp only [Option.some_inj]
    refine ⟨?_, ?_, ?_⟩
    · constructor
      · intro h
        split at h <;> simp at h
      · intro h
        simp at h
    · intro t' ht'
      subst ht'
      by_cases hC : ¬ isAdminUser st uid = true ∧ t.createdBy ≠ uid ∧
          t.assignedTo ≠ some uid
      · rw [if_pos hC]
        simp only [Bool.not_eq_true] at hC
        simp [hC.1, hC.2.1, hC.2.2]
      · rw [if_neg hC]
        simp only [Bool.not_eq_true] at hC
        constructor
        · intro h
          simp at h
        · intro h
          exact absurd h hC
    · intro t' ht' hallow
      subst ht'
      rw [if_neg]
      rcases hallow with h | h | h <;> simp [h]

/-- Witness for C9: e3 (neither admin, creator nor assignee) is denied
ticket 1; the assignee e2 receives the joined record. -/
theorem getTicket_spec_witness :
    getTicketRoute baseStore "e3" 1 = .accessDenied ∧
    getTicketRoute baseStore "e2" 1 = .ok
      { ticket := tick1
      , creator := findUser baseStore tick1.createdBy
      , assignee := tick1.assignedTo.bind (fun a => findUser baseStore a)
      , comments := getCommentsByTicket baseStore 1 } :=
  ⟨((getTicket_spec baseStore "e3" 1).2.1 tick1 (by decide)).mpr
      ⟨by decide, by decide, by decide⟩,
   (getTicket_spec baseStore "e2" 1).2.2 tick1 (by decide)
      (Or.inr (Or.inr (by decide)))⟩

end EaDesk
